import Mathlib

/-!
Verification of the sentiment-dashboard core in `importstreamlite.py`:
sentiment labelling, summary aggregation, TTL caching of fetches, the
credential gate, and the refresh loop. Compound scores are modelled as
rationals; the external VADER analyzer is modelled as an arbitrary total
function `polarity : String → ℚ` giving each text its compound score, and
the external Twitter API as explicit `Except`-valued outcomes.
-/

set_option autoImplicit false

/-- A raw tweet as delivered by the API cursor (the fields read at lines 69-76
of the source: full_text, user.screen_name, user.location, created_at,
retweet_count, favorite_count). -/
structure RawTweet where
  full_text : String
  screen_name : String
  user_location : String
  created_at : Int
  retweet_count : Nat
  favorite_count : Nat
deriving DecidableEq

/-- One row of the DataFrame built by `fetch_tweets` (lines 70-79). -/
structure TweetRecord where
  text : String
  user : String
  location : String
  created_at : Int
  retweets : Nat
  favorites : Nat
  sentiment : ℚ
  sentiment_label : String
deriving DecidableEq

/-- The chained conditional at line 78 of the source:
`'positive' if c >= 0.05 else 'negative' if c <= -0.05 else 'neutral'`. -/
def sentimentLabelOf (compound : ℚ) : String :=
  if 5 / 100 ≤ compound then "positive"
  else if compound ≤ -(5 / 100) then "negative"
  else "neutral"

/-- Scoring one tweet inside the loop at lines 68-79; `polarity` stands for the
compound field of `analyzer.polarity_scores`. -/
def scoreTweet (polarity : String → ℚ) (t : RawTweet) : TweetRecord :=
  { text := t.full_text
    user := t.screen_name
    location := t.user_location
    created_at := t.created_at
    retweets := t.retweet_count
    favorites := t.favorite_count
    sentiment := polarity t.full_text
    sentiment_label := sentimentLabelOf (polarity t.full_text) }

/-- Iterating the cursor in the try block (line 68): an exception raised while
reading any record aborts the whole block, with the first failure winning. -/
def normalizeAll : List (Except String RawTweet) → Except String (List RawTweet)
  | [] => Except.ok []
  | Except.error e :: _ => Except.error e
  | Except.ok t :: rest =>
      match normalizeAll rest with
      | Except.error e => Except.error e
      | Except.ok ts => Except.ok (t :: ts)

/-- `fetch_tweets` (lines 59-83): the try block queries the cursor and scores
each record; any exception (API, network, auth, or while reading a record) is
caught at line 81 and an empty DataFrame is returned. `queryResult` stands for
the outcome of the cursor query, each element for the outcome of reading one
tweet from it. -/
def fetch_tweets (polarity : String → ℚ)
    (queryResult : Except String (List (Except String RawTweet))) :
    List TweetRecord :=
  match queryResult with
  | Except.error _ => []
  | Except.ok items =>
      match normalizeAll items with
      | Except.error _ => []
      | Except.ok raws => raws.map (scoreTweet polarity)

/-- The summary dict built by `generate_summary` (lines 90-96). -/
structure Summary where
  total_tweets : Nat
  positive : Nat
  neutral : Nat
  negative : Nat
  avg_sentiment : ℚ
deriving DecidableEq

/-- `generate_summary` (lines 86-97): `None` on an empty DataFrame, otherwise
the counts of each label and the mean compound score. -/
def generate_summary (df : List TweetRecord) : Option Summary :=
  if df.isEmpty then none
  else some
    { total_tweets := df.length
      positive := (df.filter (fun r => decide (r.sentiment_label = "positive"))).length
      neutral := (df.filter (fun r => decide (r.sentiment_label = "neutral"))).length
      negative := (df.filter (fun r => decide (r.sentiment_label = "negative"))).length
      avg_sentiment := (df.map (fun r => r.sentiment)).sum / (df.length : ℚ) }

/-- C1: for every compound score produced by the scorer, the stored label is
"positive" iff the score is ≥ 0.05, "negative" iff it is ≤ -0.05, and
"neutral" otherwise, including exactly at the boundaries 0.05 and -0.05. -/
theorem C1_label_thresholds (polarity : String → ℚ) (t : RawTweet) :
    ((scoreTweet polarity t).sentiment_label = "positive" ↔
      5 / 100 ≤ polarity t.full_text) ∧
    ((scoreTweet polarity t).sentiment_label = "negative" ↔
      polarity t.full_text ≤ -(5 / 100)) ∧
    ((scoreTweet polarity t).sentiment_label = "neutral" ↔
      ¬ 5 / 100 ≤ polarity t.full_text ∧ ¬ polarity t.full_text ≤ -(5 / 100)) := by
  have hpn : ("positive" : String) ≠ "negative" := by decide
  have hpu : ("positive" : String) ≠ "neutral" := by decide
  have hnu : ("negative" : String) ≠ "neutral" := by decide
  simp only [scoreTweet, sentimentLabelOf]
  split_ifs with h1 h2
  · refine ⟨by simp [h1], ?_, ?_⟩
    · constructor
      · intro h; exact absurd h hpn
      · intro h; linarith
    · constructor
      · intro h; exact absurd h hpu
      · intro h; exact absurd h1 h.1
  · refine ⟨?_, by simp [h2], ?_⟩
    · constructor
      · intro h; exact absurd h.symm hpn
      · intro _; exact absurd h2 (by linarith)
    · constructor
      · intro h; exact absurd h hnu
      · intro h; exact absurd h2 h.2
  · refine ⟨?_, ?_, by simp [h1, h2]⟩
    · constructor
      · intro h; exact absurd h.symm hpu
      · intro h; exact absurd h h1
    · constructor
      · intro h; exact absurd h.symm hnu
      · intro h; exact absurd h h2

/-- C3 counterexample: on the empty batch `generate_summary` yields no Summary
at all — it returns `None` — so in particular it does not yield a Summary whose
counts are all zero. -/
theorem C3_empty_counterexample :
    ¬ ∃ s : Summary, generate_summary [] = some s ∧ s.total_tweets = 0 ∧
      s.positive = 0 ∧ s.neutral = 0 ∧ s.negative = 0 := by
  simp [generate_summary]

/-- C3 amended: on the empty batch `generate_summary` returns `none`: the
undefined mean is represented by the absence of a Summary, not by a field
inside one. -/
theorem C3_empty_yields_none : generate_summary [] = none := rfl

/-- Observable steps of one iteration of the `while True` loop (lines 111-165). -/
inductive LoopEvent
  | renderHeader
  | fetchCall
  | showSummary (s : Summary)
  | showWarning
  | sleepFor (secs : Nat)
  | rerun
deriving DecidableEq

/-- One iteration of the loop body (lines 112-165): render the header, fetch
(line 118), publish the summary when the batch is non-empty (lines 120-145)
or warn (line 148), then sleep `refresh_rate` seconds (line 164) and rerun
(line 165). -/
def cycleEvents (polarity : String → ℚ) (refresh_rate : Nat)
    (queryResult : Except String (List (Except String RawTweet))) :
    List LoopEvent :=
  let df := fetch_tweets polarity queryResult
  [LoopEvent.renderHeader, LoopEvent.fetchCall] ++
    (if df.isEmpty then [LoopEvent.showWarning]
     else (generate_summary df).elim [] (fun s => [LoopEvent.showSummary s])) ++
    [LoopEvent.sleepFor refresh_rate, LoopEvent.rerun]

/-- The infinite loop: cycle `n` uses the `n`-th query outcome. The body
contains no cancellation check — `time.sleep(refresh_rate)` at line 164 is an
unconditional blocking call and the loop condition is the constant `True` — so
the trace produced for a cycle does not depend on the externally signalled
cancellation, modelled here as `cancelSignalled` (true at the cycles during
whose Waiting phase cancellation has been signalled), which the code never
consults. -/
def loopTrace (polarity : String → ℚ) (refresh_rate : Nat)
    (queryResults : Nat → Except String (List (Except String RawTweet)))
    (cancelSignalled : Nat → Bool) (n : Nat) : List LoopEvent :=
  cycleEvents polarity refresh_rate (queryResults n)

/-- C4: an error raised inside the fetch yields an empty batch for that cycle,
the cycle shows the no-tweets warning, and then still proceeds to the sleep
(the Waiting phase) and the rerun that starts the next cycle, rather than
halting or raising. -/
theorem C4_fetch_error_cycle (polarity : String → ℚ) (refresh_rate : Nat)
    (e : String) :
    fetch_tweets polarity (Except.error e) = [] ∧
    cycleEvents polarity refresh_rate (Except.error e) =
      [LoopEvent.renderHeader, LoopEvent.fetchCall, LoopEvent.showWarning,
       LoopEvent.sleepFor refresh_rate, LoopEvent.rerun] :=
  ⟨rfl, rfl⟩

/-- C7 counterexample: with refresh rate 10 and cancellation signalled during
cycle 0 (hence during its Waiting phase), cycle 1 still performs a fetch, and
its trace is identical to the trace with no cancellation at all: the
unconditional `time.sleep` never observes the cancellation. -/
theorem C7_uncancelled_fetch_counterexample :
    loopTrace (fun _ => 0) 10 (fun _ => Except.error "down")
        (fun n => decide (n = 0)) 1 =
      loopTrace (fun _ => 0) 10 (fun _ => Except.error "down")
        (fun _ => false) 1 ∧
    LoopEvent.fetchCall ∈
      loopTrace (fun _ => 0) 10 (fun _ => Except.error "down")
        (fun n => decide (n = 0)) 1 := by
  refine ⟨rfl, ?_⟩
  simp [loopTrace, cycleEvents]

/-- C7 amended: the Waiting phase is the unconditional, uninterruptible
`time.sleep(refresh_rate)`; the loop body contains no cancellation point, so
every cycle's trace is independent of the cancellation signal, and every
cycle — including every cycle after a signalled cancellation — performs a
fetch and sleeps `refresh_rate` seconds. Stopping the loop requires external
termination by the host. -/
theorem C7_loop_ignores_cancellation (polarity : String → ℚ)
    (refresh_rate : Nat)
    (queryResults : Nat → Except String (List (Except String RawTweet)))
    (cancelSignalled : Nat → Bool) (n : Nat) :
    loopTrace polarity refresh_rate queryResults cancelSignalled n =
      loopTrace polarity refresh_rate queryResults (fun _ => false) n ∧
    LoopEvent.fetchCall ∈
      loopTrace polarity refresh_rate queryResults cancelSignalled n ∧
    LoopEvent.sleepFor refresh_rate ∈
      loopTrace polarity refresh_rate queryResults cancelSignalled n := by
  refine ⟨rfl, ?_, ?_⟩ <;>
    · simp only [loopTrace, cycleEvents, List.mem_append, List.mem_cons]
      split <;> simp

/-- The label at line 78 is always one of the three strings. -/
lemma sentimentLabelOf_cases (c : ℚ) :
    sentimentLabelOf c = "positive" ∨ sentimentLabelOf c = "neutral" ∨
      sentimentLabelOf c = "negative" := by
  unfold sentimentLabelOf
  split_ifs <;> simp

/-- A batch whose labels all come from the scorer splits exactly into the three
label filters. -/
lemma filter_labels_length (df : List TweetRecord)
    (h : ∀ r ∈ df, r.sentiment_label = sentimentLabelOf r.sentiment) :
    (df.filter (fun r => decide (r.sentiment_label = "positive"))).length +
      (df.filter (fun r => decide (r.sentiment_label = "neutral"))).length +
      (df.filter (fun r => decide (r.sentiment_label = "negative"))).length =
      df.length := by
  induction df with
  | nil => simp
  | cons r rest ih =>
      have hr := h r (List.mem_cons_self r rest)
      have htail := ih (fun x hx => h x (List.mem_cons_of_mem r hx))
      rcases sentimentLabelOf_cases r.sentiment with hc | hc | hc <;>
        rw [hc] at hr <;>
        simp [List.filter_cons, hr] <;> omega

/-- C2: for a batch whose labels come from the scorer (as every batch built by
`fetch_tweets` does), any summary `generate_summary` produces satisfies
positive + neutral + negative = total_tweets. -/
theorem C2_summary_counts_sum (df : List TweetRecord)
    (h : ∀ r ∈ df, r.sentiment_label = sentimentLabelOf r.sentiment)
    (s : Summary) (hs : generate_summary df = some s) :
    s.positive + s.neutral + s.negative = s.total_tweets := by
  unfold generate_summary at hs
  by_cases hd : df.isEmpty
  · simp [hd] at hs
  · rw [if_neg (by simpa using hd), Option.some_inj] at hs
    rw [← hs]
    exact filter_labels_length df h

/-- A one-record batch used to instantiate the hypotheses of the theorems. -/
def sampleRecord : TweetRecord :=
  { text := "good", user := "u", location := "", created_at := 0,
    retweets := 0, favorites := 0, sentiment := 1 / 2,
    sentiment_label := "positive" }

/-- C2 witness: the one-record batch `[sampleRecord]` is scorer-labelled, its
summary exists, and its counts 1 + 0 + 0 sum to its total 1. -/
theorem C2_summary_counts_sum_witness :
    (∀ r ∈ [sampleRecord], r.sentiment_label = sentimentLabelOf r.sentiment) ∧
    generate_summary [sampleRecord] =
      some { total_tweets := 1, positive := 1, neutral := 0, negative := 0,
             avg_sentiment := 1 / 2 } ∧
    (1 : Nat) + 0 + 0 = 1 := by
  have hlab : ∀ r ∈ [sampleRecord],
      r.sentiment_label = sentimentLabelOf r.sentiment := by
    intro r hr
    rw [List.mem_singleton] at hr
    subst hr
    show "positive" = sentimentLabelOf (1 / 2)
    rw [sentimentLabelOf]
    norm_num
  have hsum : generate_summary [sampleRecord] =
      some { total_tweets := 1, positive := 1, neutral := 0, negative := 0,
             avg_sentiment := 1 / 2 } := by
    norm_num [generate_summary, sampleRecord]
    exact ⟨by decide, by decide⟩
  exact ⟨hlab, hsum, C2_summary_counts_sum [sampleRecord] hlab _ hsum⟩

/-- The metric row of the loop body (lines 125-129): each percentage is
computed on demand from the summary counts and total, and only inside the
non-empty guard of line 120; nothing is stored. -/
def displayMetrics (df : List TweetRecord) : Option (ℚ × ℚ × ℚ) :=
  if df.isEmpty then none
  else
    match generate_summary df with
    | none => none
    | some s =>
        some ((s.positive : ℚ) / (s.total_tweets : ℚ) * 100,
              (s.neutral : ℚ) / (s.total_tweets : ℚ) * 100,
              (s.negative : ℚ) / (s.total_tweets : ℚ) * 100)

/-- C8: whenever the percentage computation is reached — that is, whenever
`displayMetrics` produces a value — the batch was non-empty, the summary it
divides by exists, and its total is strictly positive, so no division by zero
occurs; the percentages are recomputed from that summary, not stored in it. -/
theorem C8_percentages_guarded (df : List TweetRecord) (p : ℚ × ℚ × ℚ)
    (h : displayMetrics df = some p) :
    ∃ s : Summary, generate_summary df = some s ∧ 0 < s.total_tweets ∧
      p = ((s.positive : ℚ) / (s.total_tweets : ℚ) * 100,
           (s.neutral : ℚ) / (s.total_tweets : ℚ) * 100,
           (s.negative : ℚ) / (s.total_tweets : ℚ) * 100) := by
  unfold displayMetrics at h
  by_cases hd : df.isEmpty
  · simp [hd] at h
  · rw [if_neg (by simpa using hd)] at h
    have hlen : 0 < df.length := by
      cases df with
      | nil => simp at hd
      | cons a l => simp
    unfold generate_summary at h ⊢
    rw [if_neg (by simpa using hd)] at h ⊢
    refine ⟨_, rfl, by simpa using hlen, ?_⟩
    simpa using h.symm

/-- C8 witness: on the one-record batch the metric row is produced, the summary
total is 1 > 0, and the percentages 100/0/0 are recomputed from it. -/
theorem C8_percentages_guarded_witness :
    displayMetrics [sampleRecord] = some (100, 0, 0) ∧
    ∃ s : Summary, generate_summary [sampleRecord] = some s ∧
      0 < s.total_tweets ∧
      ((100 : ℚ), (0 : ℚ), (0 : ℚ)) =
        ((s.positive : ℚ) / (s.total_tweets : ℚ) * 100,
         (s.neutral : ℚ) / (s.total_tweets : ℚ) * 100,
         (s.negative : ℚ) / (s.total_tweets : ℚ) * 100) := by
  have hm : displayMetrics [sampleRecord] = some (100, 0, 0) := by
    norm_num [displayMetrics, generate_summary, sampleRecord]
    exact ⟨by decide, by decide⟩
  exact ⟨hm, C8_percentages_guarded [sampleRecord] (100, 0, 0) hm⟩

/-- The geo-filter dict assembled at lines 104-106 from the sidebar inputs. -/
structure GeoFilter where
  latitude : ℚ
  longitude : ℚ
  radius : ℚ
deriving DecidableEq

/-- The cache key: the argument tuple of `fetch_tweets` that the caching layer
keys on — (query, count, location-or-none); the api handle is the remaining
argument and is held fixed within a session. -/
abbrev FetchKey := String × Nat × Option GeoFilter

/-- Modelled from the spec: the TTL memoization that the `st.cache_data`
decorator at line 58 wraps around `fetch_tweets` is library code outside this
repository; §4.3 of the spec describes it as a ResultCache of entries keyed by
(query, max_count, geo-filter-or-none), each stored with the time of the fetch
that produced it. Newer entries shadow older entries for the same key. -/
structure ResultCache where
  entries : List (FetchKey × Nat × List TweetRecord)

/-- Modelled from the spec: the cache starts empty. -/
def emptyCache : ResultCache := ⟨[]⟩

/-- Modelled from the spec: look up the newest entry stored for a key. -/
def lookupEntry (c : ResultCache) (k : FetchKey) :
    Option (Nat × List TweetRecord) :=
  (c.entries.find? (fun e => decide (e.1 = k))).map (fun e => e.2)

/-- The TTL configured at line 58: cache for 5 minutes (300 seconds). -/
def defaultTTL : Nat := 300

/-- Modelled from the spec: `get_or_fetch` returns the stored batch on a hit
within `ttl` seconds of the prior fetch for that exact key; on a miss or after
expiry it invokes the underlying fetch, stores the result with the current
time, and returns it. The Bool of the result records whether the underlying
fetch was invoked. -/
def get_or_fetch (c : ResultCache) (now ttl : Nat) (k : FetchKey)
    (fetchFn : Unit → List TweetRecord) :
    List TweetRecord × ResultCache × Bool :=
  match lookupEntry c k with
  | some (t, v) =>
      if now < t + ttl then (v, c, false)
      else (fetchFn (), ⟨(k, now, fetchFn ()) :: c.entries⟩, true)
  | none => (fetchFn (), ⟨(k, now, fetchFn ()) :: c.entries⟩, true)

/-- The Clear Cache button (lines 41-42): `st.cache_data.clear()` discards
every entry. -/
def clearCache (_c : ResultCache) : ResultCache := ⟨[]⟩

/-- A fresh hit within the TTL serves the stored batch without fetching. -/
lemma get_or_fetch_hit (c : ResultCache) (now ttl : Nat) (k : FetchKey)
    (fetchFn : Unit → List TweetRecord) (t : Nat) (v : List TweetRecord)
    (h : lookupEntry c k = some (t, v)) (hlt : now < t + ttl) :
    get_or_fetch c now ttl k fetchFn = (v, c, false) := by
  simp [get_or_fetch, h, hlt]

/-- An entry older than the TTL is refetched and restored. -/
lemma get_or_fetch_expired (c : ResultCache) (now ttl : Nat) (k : FetchKey)
    (fetchFn : Unit → List TweetRecord) (t : Nat) (v : List TweetRecord)
    (h : lookupEntry c k = some (t, v)) (hge : ¬ now < t + ttl) :
    get_or_fetch c now ttl k fetchFn =
      (fetchFn (), ⟨(k, now, fetchFn ()) :: c.entries⟩, true) := by
  simp [get_or_fetch, h, hge]

/-- A key with no entry is fetched and stored. -/
lemma get_or_fetch_miss (c : ResultCache) (now ttl : Nat) (k : FetchKey)
    (fetchFn : Unit → List TweetRecord)
    (h : lookupEntry c k = none) :
    get_or_fetch c now ttl k fetchFn =
      (fetchFn (), ⟨(k, now, fetchFn ()) :: c.entries⟩, true) := by
  simp [get_or_fetch, h]

/-- C5: starting from the empty cache, a first `get_or_fetch` for a key
invokes the underlying fetch; a second call with the identical key within the
default 300-second TTL returns the same data without invoking the fetch; a
call at or after TTL expiry invokes the fetch again; and a call after an
explicit clear invokes the fetch regardless of the TTL. -/
theorem C5_cache_ttl (k : FetchKey) (f f2 : Unit → List TweetRecord)
    (t1 t2 t3 : Nat) (h2 : t2 < t1 + defaultTTL) (h3 : t1 + defaultTTL ≤ t3) :
    (get_or_fetch emptyCache t1 defaultTTL k f).2.2 = true ∧
    (get_or_fetch (get_or_fetch emptyCache t1 defaultTTL k f).2.1
        t2 defaultTTL k f2).1 =
      (get_or_fetch emptyCache t1 defaultTTL k f).1 ∧
    (get_or_fetch (get_or_fetch emptyCache t1 defaultTTL k f).2.1
        t2 defaultTTL k f2).2.2 = false ∧
    (get_or_fetch (get_or_fetch emptyCache t1 defaultTTL k f).2.1
        t3 defaultTTL k f2).2.2 = true ∧
    (get_or_fetch
        (clearCache (get_or_fetch emptyCache t1 defaultTTL k f).2.1)
        t2 defaultTTL k f2).2.2 = true := by
  have h1 := get_or_fetch_miss emptyCache t1 defaultTTL k f rfl
  have hstore :
      lookupEntry (⟨(k, t1, f ()) :: emptyCache.entries⟩ : ResultCache) k =
        some (t1, f ()) := by
    unfold lookupEntry
    rw [List.find?_cons_of_pos _ (by simp)]
    rfl
  have hhit := get_or_fetch_hit ⟨(k, t1, f ()) :: emptyCache.entries⟩
    t2 defaultTTL k f2 t1 (f ()) hstore h2
  have hexp := get_or_fetch_expired ⟨(k, t1, f ()) :: emptyCache.entries⟩
    t3 defaultTTL k f2 t1 (f ()) hstore (by omega)
  have hclear := get_or_fetch_miss
    (clearCache ⟨(k, t1, f ()) :: emptyCache.entries⟩) t2 defaultTTL k f2 rfl
  rw [h1]
  exact ⟨rfl, by rw [hhit], by rw [hhit], by rw [hexp], by rw [hclear]⟩

/-- C5 witness: with key ("#civic", 50, no geo-filter), first fetch at time 0,
a re-fetch at time 100 (within TTL) and one at time 300 (expired). -/
theorem C5_cache_ttl_witness :
    ((100 < 0 + defaultTTL) ∧ (0 + defaultTTL ≤ 300)) ∧
    ((get_or_fetch emptyCache 0 defaultTTL ("#civic", 50, none)
        (fun _ => [sampleRecord])).2.2 = true ∧
     (get_or_fetch
          (get_or_fetch emptyCache 0 defaultTTL ("#civic", 50, none)
            (fun _ => [sampleRecord])).2.1
          100 defaultTTL ("#civic", 50, none) (fun _ => [])).1 =
       (get_or_fetch emptyCache 0 defaultTTL ("#civic", 50, none)
         (fun _ => [sampleRecord])).1 ∧
     (get_or_fetch
          (get_or_fetch emptyCache 0 defaultTTL ("#civic", 50, none)
            (fun _ => [sampleRecord])).2.1
          100 defaultTTL ("#civic", 50, none) (fun _ => [])).2.2 = false ∧
     (get_or_fetch
          (get_or_fetch emptyCache 0 defaultTTL ("#civic", 50, none)
            (fun _ => [sampleRecord])).2.1
          300 defaultTTL ("#civic", 50, none) (fun _ => [])).2.2 = true ∧
     (get_or_fetch
          (clearCache
            (get_or_fetch emptyCache 0 defaultTTL ("#civic", 50, none)
              (fun _ => [sampleRecord])).2.1)
          100 defaultTTL ("#civic", 50, none) (fun _ => [])).2.2 = true) :=
  ⟨⟨by decide, by decide⟩,
    C5_cache_ttl ("#civic", 50, none) (fun _ => [sampleRecord]) (fun _ => [])
      0 100 300 (by decide) (by decide)⟩

/-- The default geo-filter of the sidebar (lines 35-37), rounded to integral
coordinates for the witness. -/
def defaultGeo : GeoFilter := { latitude := 40, longitude := -74, radius := 50 }

/-- C6: two fetches whose geo-filters differ (including present versus absent)
while query and count are identical key distinct cache entries: the keys are
unequal, and after a fetch stored under the first key, a `get_or_fetch` with
the second key still invokes the underlying fetch — even immediately, with no
TTL expiry involved. -/
theorem C6_distinct_geo_distinct_entries (q : String) (cnt : Nat)
    (l1 l2 : Option GeoFilter) (h : l1 ≠ l2)
    (f f2 : Unit → List TweetRecord) (t1 t2 : Nat) :
    ((q, cnt, l1) : FetchKey) ≠ (q, cnt, l2) ∧
    (get_or_fetch
        (get_or_fetch emptyCache t1 defaultTTL (q, cnt, l1) f).2.1
        t2 defaultTTL (q, cnt, l2) f2).2.2 = true := by
  have hk : ((q, cnt, l1) : FetchKey) ≠ (q, cnt, l2) := by
    intro he
    exact h (congrArg (fun p => p.2.2) he)
  have h1 := get_or_fetch_miss emptyCache t1 defaultTTL (q, cnt, l1) f rfl
  have hmiss :
      lookupEntry
        (⟨((q, cnt, l1), t1, f ()) :: emptyCache.entries⟩ : ResultCache)
        (q, cnt, l2) = none := by
    unfold lookupEntry
    rw [List.find?_cons_of_neg _ (by simp only [decide_eq_true_eq]; exact hk)]
    rfl
  refine ⟨hk, ?_⟩
  rw [h1, get_or_fetch_miss _ t2 defaultTTL (q, cnt, l2) f2 hmiss]

/-- C6 witness: the default geo-filter present versus absent, with identical
query and count. -/
theorem C6_distinct_geo_distinct_entries_witness :
    ((none : Option GeoFilter) ≠ some defaultGeo) ∧
    ((("#civic", 50, (none : Option GeoFilter)) : FetchKey) ≠
        ("#civic", 50, some defaultGeo) ∧
      (get_or_fetch
          (get_or_fetch emptyCache 0 defaultTTL
            ("#civic", 50, (none : Option GeoFilter))
            (fun _ => [sampleRecord])).2.1
          0 defaultTTL ("#civic", 50, some defaultGeo)
          (fun _ => [])).2.2 = true) :=
  ⟨fun he => Option.noConfusion he,
    C6_distinct_geo_distinct_entries "#civic" 50 none (some defaultGeo)
      (fun he => Option.noConfusion he)
      (fun _ => [sampleRecord]) (fun _ => []) 0 0⟩

/-- True exactly when the try block of `fetch_tweets` raises: the cursor query
itself fails, or reading some record from the cursor fails. -/
def fetchRaised : Except String (List (Except String RawTweet)) → Bool
  | Except.error _ => true
  | Except.ok items =>
      items.any (fun x => match x with
        | Except.error _ => true
        | Except.ok _ => false)

/-- If reading any record fails, normalizing the whole cursor fails. -/
lemma normalizeAll_error (items : List (Except String RawTweet))
    (h : items.any (fun x => match x with
        | Except.error _ => true
        | Except.ok _ => false) = true) :
    ∃ e, normalizeAll items = Except.error e := by
  induction items with
  | nil => simp at h
  | cons x rest ih =>
      cases x with
      | error e => exact ⟨e, rfl⟩
      | ok t =>
          simp only [List.any_cons, Bool.or_eq_true] at h
          rcases h with h | h
          · simp at h
          · obtain ⟨e, he⟩ := ih h
            refine ⟨e, ?_⟩
            simp only [normalizeAll, he]

/-- C9: `fetch_tweets` is total at its call boundary — it is a function into
DataFrames, so it returns one on every input and can propagate no exception —
and whenever the try block raises (the API query fails or reading any record
fails) it returns the empty DataFrame. -/
theorem C9_fetch_total (polarity : String → ℚ)
    (qr : Except String (List (Except String RawTweet)))
    (h : fetchRaised qr = true) :
    fetch_tweets polarity qr = [] := by
  cases qr with
  | error e => rfl
  | ok items =>
      simp only [fetchRaised] at h
      obtain ⟨e, he⟩ := normalizeAll_error items h
      simp only [fetch_tweets, he]

/-- A raw tweet used to instantiate the fetch-failure witness. -/
def sampleRaw : RawTweet :=
  { full_text := "good", screen_name := "u", user_location := "",
    created_at := 0, retweet_count := 0, favorite_count := 0 }

/-- C9 witness: a query whose second record fails to read raises inside the
try block, and `fetch_tweets` returns the empty DataFrame for it. -/
theorem C9_fetch_total_witness :
    fetchRaised (Except.ok [Except.ok sampleRaw, Except.error "bad record"])
        = true ∧
    fetch_tweets (fun _ => 0)
        (Except.ok [Except.ok sampleRaw, Except.error "bad record"]) = [] :=
  ⟨rfl, C9_fetch_total (fun _ => 0)
    (Except.ok [Except.ok sampleRaw, Except.error "bad record"]) rfl⟩

/-- Whether the main-dashboard branch starts the refresh loop, warns about
invalid credentials, or asks for credentials. -/
inductive MainOutcome
  | loopStarted
  | warnInvalidCreds
  | infoEnterCreds
deriving DecidableEq

/-- What the credential gate does: whether `authenticate_twitter` was called
and which branch the dashboard takes. -/
structure MainResult where
  authAttempted : Bool
  outcome : MainOutcome
deriving DecidableEq

/-- The credential gate (lines 100-103 and 166-169): Python string truthiness
makes `if api_key and api_secret and access_token and access_secret:` require
all four credentials non-empty; only then is `authenticate_twitter` called,
and the `while True` loop is entered only if it returned a non-None client
(`if api:`). `auth` stands for the result of `authenticate_twitter`, None on
an authentication exception. -/
def mainGuard (api_key api_secret access_token access_secret : String)
    (auth : Option Unit) : MainResult :=
  if api_key ≠ "" ∧ api_secret ≠ "" ∧ access_token ≠ "" ∧ access_secret ≠ ""
  then
    { authAttempted := true
      outcome := match auth with
        | some _ => MainOutcome.loopStarted
        | none => MainOutcome.warnInvalidCreds }
  else { authAttempted := false, outcome := MainOutcome.infoEnterCreds }

/-- C10: the refresh loop is entered exactly when all four credential strings
are non-empty and authentication returned a non-null client, and
authentication is attempted exactly when all four are non-empty — so if any
credential is empty, no authentication and no loop (hence no fetch) ever
occurs. -/
theorem C10_credential_gate (k s t ts : String) (auth : Option Unit) :
    ((mainGuard k s t ts auth).outcome = MainOutcome.loopStarted ↔
      (k ≠ "" ∧ s ≠ "" ∧ t ≠ "" ∧ ts ≠ "" ∧ auth.isSome = true)) ∧
    ((mainGuard k s t ts auth).authAttempted = true ↔
      (k ≠ "" ∧ s ≠ "" ∧ t ≠ "" ∧ ts ≠ "")) := by
  unfold mainGuard
  split_ifs with h
  · cases auth with
    | some a => simp [h]
    | none => simp [h]
  · have hfull : ¬(k ≠ "" ∧ s ≠ "" ∧ t ≠ "" ∧ ts ≠ "" ∧ auth.isSome = true) :=
      fun hc => h ⟨hc.1, hc.2.1, hc.2.2.1, hc.2.2.2.1⟩
    simp [h, hfull]
